import Mathlib

/-!
Verification of the configuration header `wlan_settings.h` of the
LedMatrixEffectBox repository.  The header defines compile-time constants
for a WiFi-enabled LED matrix controller: an OTA update password, router
credentials, a product name prefix, a WiFi retry timeout count, and three
static network addresses.  We embed the constants, the (spec-described)
configuration-load validation, and a read-only access interface, and prove
the spec's testable properties about them.
-/

/-- Model of the Arduino `IPAddress` value: four octets, each stored as an
unsigned 8-bit quantity.  The C++ constructor takes `uint8_t` arguments, so a
value outside 0–255 would be truncated modulo 256; `IPAddress.ofOctets`
mirrors that conversion. -/
structure IPAddress where
  a : Nat
  b : Nat
  c : Nat
  d : Nat
deriving DecidableEq

/-- Embedding of the `IPAddress(o1, o2, o3, o4)` constructor used in
`wlan_settings.h`: each argument passes through `uint8_t` conversion. -/
def IPAddress.ofOctets (a b c d : Nat) : IPAddress :=
  ⟨a % 256, b % 256, c % 256, d % 256⟩

/-- The four octets of an address, in network order. -/
def IPAddress.octets (ip : IPAddress) : List Nat :=
  [ip.a, ip.b, ip.c, ip.d]

/-- The address viewed as a 32-bit value (big-endian octet order). -/
def IPAddress.toWord32 (ip : IPAddress) : Nat :=
  ((ip.a * 256 + ip.b) * 256 + ip.c) * 256 + ip.d

/-- `#define OTA_PASSWORD "PROVIDE YOUR PASSWORD FOR OTA UPDATE"` -/
def OTA_PASSWORD : String := "PROVIDE YOUR PASSWORD FOR OTA UPDATE"

/-- `#define ROUTER_SSID "SSID OF YOUR ROUTER"` -/
def ROUTER_SSID : String := "SSID OF YOUR ROUTER"

/-- `#define ROUTER_PASSWD "PASSWORD OF YOUR ROUTER"` -/
def ROUTER_PASSWD : String := "PASSWORD OF YOUR ROUTER"

/-- `#define PRODUCT_NAME "LedMatrixEffectBox_"` -/
def PRODUCT_NAME : String := "LedMatrixEffectBox_"

/-- `#define MAX_NUM_OF_WIFI_SSID_TRIAL_TIMEOUT_IN_500MS 10`, a C integer
constant (modelled as `Int` so that zero/negative candidates are statable). -/
def MAX_NUM_OF_WIFI_SSID_TRIAL_TIMEOUT_IN_500MS : Int := 10

/-- The total wait time, in milliseconds, documented by the source comment
`// 6 sec` attached to `MAX_NUM_OF_WIFI_SSID_TRIAL_TIMEOUT_IN_500MS`. -/
def commentedTimeoutMs : Int := 6000

/-- `const IPAddress G_ownStaticIP = IPAddress(192, 168, 8, 205);` -/
def G_ownStaticIP : IPAddress := IPAddress.ofOctets 192 168 8 205

/-- `const IPAddress G_gatewayIP = IPAddress(192, 168, 8, 1);` -/
def G_gatewayIP : IPAddress := IPAddress.ofOctets 192 168 8 1

/-- `const IPAddress G_maskIP = IPAddress(255, 255, 0, 0);` -/
def G_maskIP : IPAddress := IPAddress.ofOctets 255 255 0 0

/-- A 32-bit value is a contiguous netmask when it is a run of one bits
followed only by zero bits: `m = 2^32 - 2^(32-k)` for some prefix length
`k ≤ 32`. -/
def isContiguousMask (m : Nat) : Prop :=
  ∃ k, k ≤ 32 ∧ m = 2 ^ 32 - 2 ^ (32 - k)

/-- The configuration fields enumerated by the spec: OTA password, router
SSID, router password, product name prefix, WiFi retry timeout count, device
static IP, gateway IP, subnet mask. -/
inductive ConfigField where
  | otaPassword
  | routerSsid
  | routerPasswd
  | productName
  | retryTimeoutCount
  | ownStaticIP
  | gatewayIP
  | maskIP
deriving DecidableEq

/-- A configuration value: a string, an integer, or an IP address. -/
inductive ConfigValue where
  | str : String → ConfigValue
  | int : Int → ConfigValue
  | ip : IPAddress → ConfigValue
deriving DecidableEq

/-- The single immutable configuration structure described by the spec's
external interface: one field per constant of `wlan_settings.h`. -/
structure WlanConfig where
  otaPassword : String
  routerSsid : String
  routerPasswd : String
  productName : String
  retryTimeoutCount : Int
  ownStaticIP : IPAddress
  gatewayIP : IPAddress
  maskIP : IPAddress
deriving DecidableEq

/-- The configuration populated at compile time from the constants of
`wlan_settings.h`. -/
def theConfig : WlanConfig :=
  ⟨OTA_PASSWORD, ROUTER_SSID, ROUTER_PASSWD, PRODUCT_NAME,
   MAX_NUM_OF_WIFI_SSID_TRIAL_TIMEOUT_IN_500MS,
   G_ownStaticIP, G_gatewayIP, G_maskIP⟩

/-- Reading one field of the configuration. -/
def readField (c : WlanConfig) : ConfigField → ConfigValue
  | .otaPassword => .str c.otaPassword
  | .routerSsid => .str c.routerSsid
  | .routerPasswd => .str c.routerPasswd
  | .productName => .str c.productName
  | .retryTimeoutCount => .int c.retryTimeoutCount
  | .ownStaticIP => .ip c.ownStaticIP
  | .gatewayIP => .ip c.gatewayIP
  | .maskIP => .ip c.maskIP

/-- The only operation at the external interface is a field read; it returns
the value and leaves the configuration state unchanged. -/
def step (c : WlanConfig) (f : ConfigField) : WlanConfig × ConfigValue :=
  (c, readField c f)

/-- Running a sequence of read accesses against the configuration state. -/
def runReads (c : WlanConfig) (ops : List ConfigField) : WlanConfig :=
  ops.foldl (fun s f => (step s f).1) c

/-- Reading the whole configuration at access index `i`: the constants are
compile-time values, so every access sees the same structure. -/
def readConfig (_i : Nat) : WlanConfig := theConfig

/-- The symbol defined in `wlan_settings.h` for each enumerated field. -/
def ConfigField.definedName : ConfigField → String
  | .otaPassword => "OTA_PASSWORD"
  | .routerSsid => "ROUTER_SSID"
  | .routerPasswd => "ROUTER_PASSWD"
  | .productName => "PRODUCT_NAME"
  | .retryTimeoutCount => "MAX_NUM_OF_WIFI_SSID_TRIAL_TIMEOUT_IN_500MS"
  | .ownStaticIP => "G_ownStaticIP"
  | .gatewayIP => "G_gatewayIP"
  | .maskIP => "G_maskIP"

/-- The enumerated fields, in the order the spec lists them. -/
def allConfigFields : List ConfigField :=
  [.otaPassword, .routerSsid, .routerPasswd, .productName,
   .retryTimeoutCount, .ownStaticIP, .gatewayIP, .maskIP]

/-- The names `wlan_settings.h` defines, in source order: four string
macros, one numeric macro, three `const IPAddress` globals (and nothing
else). -/
def wlanSettingsDefinedNames : List String :=
  ["OTA_PASSWORD", "ROUTER_SSID", "ROUTER_PASSWD", "PRODUCT_NAME",
   "MAX_NUM_OF_WIFI_SSID_TRIAL_TIMEOUT_IN_500MS",
   "G_ownStaticIP", "G_gatewayIP", "G_maskIP"]

/-- An IP address candidate before validation, with unconstrained integer
octets (a malformed source edit could put any integer in an octet slot). -/
structure RawIP where
  a : Int
  b : Int
  c : Int
  d : Int
deriving DecidableEq

/-- The four candidate octets, in network order. -/
def RawIP.octets (ip : RawIP) : List Int :=
  [ip.a, ip.b, ip.c, ip.d]

/-- A candidate configuration before validation. -/
structure RawConfig where
  otaPassword : String
  routerSsid : String
  routerPasswd : String
  productName : String
  retryTimeoutCount : Int
  ownStaticIP : RawIP
  gatewayIP : RawIP
  maskIP : RawIP
deriving DecidableEq

/-- All candidate IP octets of a candidate configuration. -/
def RawConfig.allOctets (c : RawConfig) : List Int :=
  c.ownStaticIP.octets ++ c.gatewayIP.octets ++ c.maskIP.octets

/-- An octet is well formed when it lies in 0–255. -/
def octetInRange (n : Int) : Bool :=
  decide (0 ≤ n) && decide (n ≤ 255)

/-- A candidate configuration is well formed when every IP octet is in range
and the retry-timeout count is positive. -/
def configOK (c : RawConfig) : Bool :=
  c.allOctets.all octetInRange && decide (0 < c.retryTimeoutCount)

/-- Modelled from the spec: the repository contains no configuration-load
code (only the constants), so the load-time validation is taken from spec §7:
reject malformed IP octets (outside the 0–255 range) or a zero/negative
retry-timeout count, surfacing a configuration error before any network
operation; otherwise the configuration is returned unchanged. -/
def loadConfig (c : RawConfig) : Except String RawConfig :=
  if configOK c then Except.ok c else Except.error "configuration error"

/-- Whether loading a candidate configuration surfaces a configuration
error. -/
def raisesConfigError (c : RawConfig) : Bool :=
  match loadConfig c with
  | Except.error _ => true
  | Except.ok _ => false

/-- The candidate configuration holding the constants of `wlan_settings.h`,
as fed to the load-time validation. -/
def theRawConfig : RawConfig :=
  ⟨OTA_PASSWORD, ROUTER_SSID, ROUTER_PASSWD, PRODUCT_NAME,
   MAX_NUM_OF_WIFI_SSID_TRIAL_TIMEOUT_IN_500MS,
   ⟨192, 168, 8, 205⟩, ⟨192, 168, 8, 1⟩, ⟨255, 255, 0, 0⟩⟩

theorem runReads_eq_self (c : WlanConfig) (ops : List ConfigField) :
    runReads c ops = c := by
  induction ops with
  | nil => rfl
  | cons f t _ih => simp [runReads, step]

/-- C3: the WiFi retry timeout count `MAX_NUM_OF_WIFI_SSID_TRIAL_TIMEOUT_IN_500MS`
is a positive integer (hence also non-negative). -/
theorem retry_timeout_count_pos :
    0 < MAX_NUM_OF_WIFI_SSID_TRIAL_TIMEOUT_IN_500MS := by decide

/-- C10: the device's static IP `G_ownStaticIP` differs from the gateway
address `G_gatewayIP`; in particular they differ in the fourth octet
(205 versus 1). -/
theorem ownStaticIP_ne_gatewayIP :
    G_ownStaticIP ≠ G_gatewayIP ∧
    G_ownStaticIP.d = 205 ∧ G_gatewayIP.d = 1 := by decide

/-- C1: the retry timeout count multiplied by 500ms yields 5000ms, which
does NOT equal the 6000ms (6 seconds) documented by the source comment
`// 6 sec`: the constant contradicts its own annotation. -/
theorem retry_timeout_times_500_ne_commented :
    MAX_NUM_OF_WIFI_SSID_TRIAL_TIMEOUT_IN_500MS * 500 = 5000 ∧
    commentedTimeoutMs = 6000 ∧
    MAX_NUM_OF_WIFI_SSID_TRIAL_TIMEOUT_IN_500MS * 500 ≠ commentedTimeoutMs := by
  decide

/-- C2: each IP-like constant (`G_ownStaticIP`, `G_gatewayIP`, `G_maskIP`)
decomposes into exactly four integer octets, each in the range 0–255. -/
theorem ip_constants_four_octets_in_range :
    (G_ownStaticIP.octets.length = 4 ∧
      ∀ n ∈ G_ownStaticIP.octets, 0 ≤ n ∧ n ≤ 255) ∧
    (G_gatewayIP.octets.length = 4 ∧
      ∀ n ∈ G_gatewayIP.octets, 0 ≤ n ∧ n ≤ 255) ∧
    (G_maskIP.octets.length = 4 ∧
      ∀ n ∈ G_maskIP.octets, 0 ≤ n ∧ n ≤ 255) := by
  decide

/-- Witness for C2: the first octet of `G_ownStaticIP` evaluates to 192 and
the range bound holds there. -/
theorem ip_constants_four_octets_in_range_witness :
    0 ≤ (192 : Nat) ∧ (192 : Nat) ≤ 255 :=
  ip_constants_four_octets_in_range.1.2 192 (by decide)

/-- C5: each string constant (router SSID, router password, OTA password,
product name) is non-empty, under the precondition that its corresponding
feature (OTA, WiFi) is enabled. -/
theorem string_constants_nonempty_when_enabled :
    ∀ otaEnabled wifiEnabled : Bool,
      (otaEnabled = true → OTA_PASSWORD ≠ "") ∧
      (wifiEnabled = true →
        ROUTER_SSID ≠ "" ∧ ROUTER_PASSWD ≠ "" ∧ PRODUCT_NAME ≠ "") := by
  intro otaEnabled wifiEnabled
  exact ⟨fun _ => by decide, fun _ => by decide⟩

/-- Witness for C5: with both features enabled, all four strings are
non-empty. -/
theorem string_constants_nonempty_when_enabled_witness :
    OTA_PASSWORD ≠ "" ∧
    ROUTER_SSID ≠ "" ∧ ROUTER_PASSWD ≠ "" ∧ PRODUCT_NAME ≠ "" :=
  ⟨(string_constants_nonempty_when_enabled true true).1 rfl,
   (string_constants_nonempty_when_enabled true true).2 rfl⟩

/-- C6: the configuration header defines exactly the enumerated fields and
no others: the defined names are precisely the images of the eight
enumerated fields, each field appears once, and every field is covered. -/
theorem header_defines_exactly_enumerated_fields :
    wlanSettingsDefinedNames = allConfigFields.map ConfigField.definedName ∧
    allConfigFields.Nodup ∧
    ∀ f : ConfigField, f ∈ allConfigFields := by
  refine ⟨by decide, by decide, ?_⟩
  intro f
  cases f <;> decide

/-- C7: reading the configuration is deterministic and idempotent: any two
read accesses see bit-identical structures, and reading any field after any
sequence of interface operations yields the same value as reading it
initially — nothing mutates the compile-time values. -/
theorem config_reads_deterministic :
    (∀ i j : Nat, readConfig i = readConfig j) ∧
    (∀ (ops : List ConfigField) (f : ConfigField),
      readField (runReads theConfig ops) f = readField theConfig f) := by
  refine ⟨fun i j => rfl, fun ops f => ?_⟩
  rw [runReads_eq_self]

/-- C8: the configuration is exposed read-only: every operation of the
external interface leaves every field unchanged, and after any sequence of
operations the configuration still equals the compile-time values. -/
theorem config_read_only_interface :
    (∀ (c : WlanConfig) (f : ConfigField), (step c f).1 = c) ∧
    (∀ ops : List ConfigField, runReads theConfig ops = theConfig) := by
  exact ⟨fun c f => rfl, fun ops => runReads_eq_self theConfig ops⟩

/-- C9: `G_maskIP` (255.255.0.0) is a contiguous netmask (16 one bits then
only zero bits as a 32-bit value), and under it `G_ownStaticIP` and
`G_gatewayIP` share the network address 192.168.0.0. -/
theorem mask_contiguous_and_same_subnet :
    isContiguousMask G_maskIP.toWord32 ∧
    Nat.land G_ownStaticIP.toWord32 G_maskIP.toWord32 =
      (IPAddress.ofOctets 192 168 0 0).toWord32 ∧
    Nat.land G_gatewayIP.toWord32 G_maskIP.toWord32 =
      (IPAddress.ofOctets 192 168 0 0).toWord32 := by
  exact ⟨⟨16, by decide⟩, by decide, by decide⟩

/-- C4: configuration-load validation surfaces a configuration error if and
only if some candidate IP octet is outside 0–255 or the retry-timeout count
is not positive; on the constants of `wlan_settings.h` it succeeds without
error. -/
theorem loadConfig_error_iff :
    (∀ c : RawConfig,
      raisesConfigError c = true ↔
        ((∃ n ∈ c.allOctets, n < 0 ∨ 255 < n) ∨ c.retryTimeoutCount ≤ 0)) ∧
    loadConfig theRawConfig = Except.ok theRawConfig := by
  constructor
  · intro c
    have hsplit : raisesConfigError c = true ↔ ¬(configOK c = true) := by
      cases hc : configOK c <;> simp [raisesConfigError, loadConfig, hc]
    rw [hsplit]
    have hok : configOK c = true ↔
        ((∀ n ∈ c.allOctets, 0 ≤ n ∧ n ≤ 255) ∧ 0 < c.retryTimeoutCount) := by
      simp [configOK, octetInRange, List.all_eq_true]
    rw [hok, not_and_or, not_forall]
    constructor
    · rintro (⟨n, hn⟩ | hr)
      · rw [Classical.not_imp] at hn
        exact Or.inl ⟨n, hn.1, by omega⟩
      · exact Or.inr (by omega)
    · rintro (⟨n, hmem, hout⟩ | hr)
      · exact Or.inl ⟨n, by rw [Classical.not_imp]; exact ⟨hmem, by omega⟩⟩
      · exact Or.inr (by omega)
  · rfl
